import Mathlib

/-!
Verification development for the Moodflo v2 backend
(`backend/app.py`, `backend/core/insights_generator.py`,
`backend/modules/report_generator.py`).

The Python code is shallowly embedded: the per-session dictionaries become a
`Session` structure, the `active_sessions` dict becomes a finite map from ids
to sessions, the HTTP handlers become pure functions from the session map (and
an environment of external collaborators) to a response together with the
updated map, and the rule-based fallback classifier and the report generator
become pure string-producing functions.  Python floats are represented by
rationals; all arithmetic on them in the embedded code is integer arithmetic
on numerator and denominator so that every definition evaluates by `decide`.
-/

/-! ## String utilities (kernel-evaluable counterparts of the Python string
operations used by the embedded code) -/

/-- ASCII lowercasing, as CPython's `str.lower` acts on the ASCII range; the
file extensions compared against it are all ASCII. -/
def lowerChar (c : Char) : Char :=
  if 65 ≤ c.toNat ∧ c.toNat ≤ 90 then Char.ofNat (c.toNat + 32) else c

def strLower (s : String) : String :=
  String.mk (s.toList.map lowerChar)

def listContainsSub (needle : List Char) : List Char → Bool
  | [] => needle.isEmpty
  | c :: rest => List.isPrefixOf needle (c :: rest) || listContainsSub needle rest

/-- Python's `needle in hay` substring test. -/
def strContains (hay needle : String) : Bool :=
  listContainsSub needle.toList hay.toList

def splitOnCharAux (sep : Char) (cur : List Char) : List Char → List String
  | [] => [String.mk cur.reverse]
  | c :: rest =>
    if c = sep then String.mk cur.reverse :: splitOnCharAux sep [] rest
    else splitOnCharAux sep (c :: cur) rest

/-- Python's `s.split(sep)` for a one-character separator (empty pieces kept). -/
def splitOnChar (sep : Char) (s : String) : List String :=
  splitOnCharAux sep [] s.toList

def isSpaceChar (c : Char) : Bool :=
  c = ' ' || c = '\t' || c = '\n' || c = '\r'

/-- Python's `s.strip()` restricted to ASCII whitespace. -/
def trimChars (s : String) : String :=
  String.mk (((s.toList.dropWhile isSpaceChar).reverse.dropWhile isSpaceChar).reverse)

/-- Python's `sep.join(pieces)`. -/
def joinWith (sep : String) : List String → String
  | [] => ""
  | [x] => x
  | x :: y :: rest => x ++ sep ++ joinWith sep (y :: rest)

/-- Python's `s[:n]`. -/
def strTake (s : String) (n : Nat) : String :=
  String.mk (s.toList.take n)

def rfindChar (c : Char) : List Char → Option Nat
  | [] => none
  | x :: xs =>
    match rfindChar c xs with
    | some i => some (i + 1)
    | none => if x = c then some 0 else none

/-- pathlib's `PurePath(p).suffix`: the part of the final path component from
its last dot on, or empty when the name has no dot, starts with its only dot,
or ends with the dot. -/
def pathSuffix (p : String) : String :=
  let name := (splitOnChar '/' p).getLastD p
  let cs := name.toList
  match rfindChar '.' cs with
  | some i => if 0 < i ∧ i < cs.length - 1 then String.mk (cs.drop i) else ""
  | none => ""

/-! ## Numeric formatting.  Python floats are modelled as rationals; the
f-string formatters `:.1f` and `:.2f` are implemented on numerator and
denominator.  CPython rounds ties to even; ties never occur in the data
exercised below, so round-half-up is used. -/

def fmtPad (width a : Nat) : String :=
  let s := toString a
  (String.mk (List.replicate (width - s.length) '0')) ++ s

/-- `f"{q:.1f}"`. -/
def fmt1 (q : ℚ) : String :=
  let t : Int := Int.fdiv (20 * q.num + (q.den : Int)) (2 * (q.den : Int))
  (if t < 0 then "-" else "") ++ toString (t.natAbs / 10) ++ "." ++ toString (t.natAbs % 10)

/-- `f"{q:.2f}"`. -/
def fmt2 (q : ℚ) : String :=
  let t : Int := Int.fdiv (200 * q.num + (q.den : Int)) (2 * (q.den : Int))
  (if t < 0 then "-" else "") ++ toString (t.natAbs / 100) ++ "." ++ fmtPad 2 (t.natAbs % 100)

/-- `ReportGenerator.format_time`: seconds to `f"{mins}:{secs:02d}"` with
`mins = int(seconds // 60)` and `secs = int(seconds % 60)`. -/
def format_time (seconds : ℚ) : String :=
  let mins : Int := Int.fdiv seconds.num (60 * (seconds.den : Int))
  let secs : Int := Int.fdiv seconds.num (seconds.den : Int) - 60 * mins
  toString mins ++ ":" ++ fmtPad 2 secs.natAbs

/-! ## Fallback insight classifier (`core/insights_generator.py`,
`InsightsGenerator._fallback_suggestions`). -/

/-- The summary-metrics record handed to `_fallback_suggestions` (the
`analysis_data` dict); the distribution dict becomes an association list. -/
structure SummaryData where
  dominant_emotion : String
  avg_energy : ℚ
  silence_pct : ℚ
  participation : ℚ
  volatility : ℚ
  psych_risk : String
  distribution : List (String × ℚ)
deriving DecidableEq

/-- Python's `dict.get(key, 0)` on the distribution histogram. -/
def distGet (d : List (String × ℚ)) (k : String) : ℚ :=
  match d.find? (fun p => p.1 == k) with
  | some p => p.2
  | none => 0

def energised_header : String :=
  "⚡ ENERGISED MEETING\nTeam showed high energy and positive engagement.\n"

def energised_suggestions : List String :=
  [ "✓ Momentum is strong — protect it by ending meetings early this week"
  , "✓ Share quick wins publicly to reward the positive energy"
  , "✓ Add buffer time between meetings to prevent burnout"
  , "✓ Capture key insights while engagement is at peak"
  , "✓ Consider replicating this meeting format in future" ]

def stressed_header : String :=
  "🔥 STRESSED / TENSE MEETING\nTeam tone indicated stress and tension.\n"

def stressed_suggestions : List String :=
  [ "⚠️ Cancel or postpone non-essential meetings this week"
  , "⚠️ Offer one-to-one check-ins to understand concerns"
  , "⚠️ Share something positive that's under control"
  , "⚠️ Consider postponing major decisions until tension eases"
  , "⚠️ Review workload distribution across the team" ]

def flat_header : String :=
  "🌫️ FLAT / DISENGAGED MEETING\nTeam showed low energy and engagement.\n"

def flat_suggestions : List String :=
  [ "⚡ Cut meeting time by 50% next week to respect energy levels"
  , "⚡ Consider ending the week early for recovery"
  , "⚡ Create space for anonymous feedback"
  , "⚡ Introduce interactive elements or breakout discussions"
  , "⚡ Review if meeting objectives are clear and relevant" ]

def thoughtful_header : String :=
  "💬 THOUGHTFUL / FOCUSED MEETING\nTeam was calm, steady, and reflective.\n"

def thoughtful_suggestions : List String :=
  [ "✓ Excellent meeting dynamics — maintain this format"
  , "✓ Capture insights and decisions while they're fresh"
  , "✓ Ask team: 'What helped today's flow?'"
  , "✓ Document and repeat successful elements"
  , "✓ Consider this a baseline for future meetings" ]

def volatile_header : String :=
  "🌪️ VOLATILE / UNSTABLE MEETING\nEmotional tone was unpredictable and mixed.\n"

def volatile_suggestions : List String :=
  [ "⚠️ Follow up individually with less active participants"
  , "⚠️ Reiterate shared goals and objectives in writing"
  , "⚠️ Consider bringing in facilitation support"
  , "⚠️ Break large group into smaller discussion groups"
  , "⚠️ Review meeting structure and participation balance" ]

def default_header : String := "MEETING ANALYSIS\n"

def default_suggestions : List String :=
  [ "Review meeting structure and participation patterns"
  , "Consider individual check-ins with team members"
  , "Monitor emotional patterns in upcoming meetings"
  , "Gather feedback on meeting effectiveness" ]

/-- The if/elif chain of `_fallback_suggestions` choosing `category_header`
and `suggestions` from `dominant` by substring tests, in source order. -/
def selectCategory (dominant : String) : String × List String :=
  if strContains dominant "Energised" then
    (energised_header, energised_suggestions)
  else if strContains dominant "Stressed" || strContains dominant "Tense" then
    (stressed_header, stressed_suggestions)
  else if strContains dominant "Flat" || strContains dominant "Disengaged" then
    (flat_header, flat_suggestions)
  else if strContains dominant "Thoughtful" || strContains dominant "Constructive" then
    (thoughtful_header, thoughtful_suggestions)
  else if strContains dominant "Volatile" || strContains dominant "Unstable" then
    (volatile_header, volatile_suggestions)
  else
    (default_header, default_suggestions)

/-- The `psych_section` f-string of the `High` branch. -/
def highSection (data : SummaryData) : String :=
  "\n\n🧠 PSYCHOLOGICAL SAFETY RISK: HIGH\nCritical factors detected — immediate action required.\n\nMetrics:\n• Silence: "
    ++ fmt1 data.silence_pct
    ++ "%\n• Stress: "
    ++ fmt1 (distGet data.distribution "🔥 Stressed/Tense")
    ++ "%\n• Volatility: "
    ++ fmt1 data.volatility
    ++ "\n\nURGENT ACTIONS:\n• Pause all group decision-making immediately\n• Score team's current working experience (1-5 scale)\n• Run psychological safety retrospective\n• Schedule one-to-one's with all participants\n• Address concerns before proceeding with regular schedule\n"

/-- The `psych_note` f-string of the `Medium` branch. -/
def mediumSection (data : SummaryData) : String :=
  "\n\n⚠️ PSYCHOLOGICAL SAFETY RISK: MEDIUM\nSome warning signs detected — monitor closely.\n\nMetrics:\n• Silence: "
    ++ fmt1 data.silence_pct
    ++ "%\n• Stress: "
    ++ fmt1 (distGet data.distribution "🔥 Stressed/Tense")
    ++ "%\n• Volatility: "
    ++ fmt1 data.volatility
    ++ "\n\nNEXT STEPS:\n• Monitor team dynamics in next session\n• Create anonymous feedback channel\n• Check in with quieter team members\n"

/-- The literal appended by the `else` (low-risk) branch. -/
def lowLine : String :=
  "\n\n✓ Psychological Safety: LOW RISK — Team dynamics appear healthy"

/-- `InsightsGenerator._fallback_suggestions`: category selection followed by
one of the three risk-level returns. -/
def fallback_suggestions (data : SummaryData) : String :=
  let sel := selectCategory data.dominant_emotion
  let category_header := sel.1
  let suggestions := sel.2
  if data.psych_risk == "High" then
    category_header ++ "\nRECOMMENDATIONS:\n" ++ joinWith "\n" (suggestions.take 5)
      ++ highSection data
  else if data.psych_risk == "Medium" then
    category_header ++ "\nRECOMMENDATIONS:\n" ++ joinWith "\n" (suggestions.take 5)
      ++ mediumSection data
  else
    category_header ++ "\nRECOMMENDATIONS:\n" ++ joinWith "\n" (suggestions.take 5)
      ++ lowLine

/-- The risk annex actually appended by `fallback_suggestions`, by branch. -/
def riskAnnex (data : SummaryData) : String :=
  if data.psych_risk == "High" then highSection data
  else if data.psych_risk == "Medium" then mediumSection data
  else lowLine

/-- Restatement of the spec's category-selection rule (§4.3): an explicit
ordered list of (pattern set, category) pairs, the first pair one of whose
patterns occurs in `dominantEmotion` winning, with a default category when
none matches.  Compared against the code's `selectCategory` below. -/
def categoryPatterns : List (List String × (String × List String)) :=
  [ (["Energised"], (energised_header, energised_suggestions))
  , (["Stressed", "Tense"], (stressed_header, stressed_suggestions))
  , (["Flat", "Disengaged"], (flat_header, flat_suggestions))
  , (["Thoughtful", "Constructive"], (thoughtful_header, thoughtful_suggestions))
  , (["Volatile", "Unstable"], (volatile_header, volatile_suggestions)) ]

def selectCategorySpec (dominant : String) : String × List String :=
  match categoryPatterns.find? (fun pr => pr.1.any (fun p => strContains dominant p)) with
  | some pr => pr.2
  | none => (default_header, default_suggestions)


/-! ## Data model of `backend/app.py`. -/

/-- One sample of the analysis timeline (`results["timeline"]` entries, the
dicts with keys `time`, `energy`, `emotion_raw`, `category`). -/
structure TimelinePoint where
  time : ℚ
  energy : ℚ
  emotion_raw : String
  category : String
deriving DecidableEq

/-- The progressive stream cache (`session["stream_data"]`), with the keys
the coordinator reads and writes. -/
structure StreamData where
  duration : ℚ
  timestamps : List ℚ
  energy_timeline : List ℚ
  emotion_series : List String
  categories : List String
  sample_rate : Nat
  is_fully_processed : Bool
deriving DecidableEq

/-- The converged full-analysis record (`session["analysis"]`), with the keys
read by `analyze_meeting` and the report generator. -/
structure AnalysisResult where
  duration : ℚ
  timeline : List TimelinePoint
  summary : SummaryData
  clusters : List (String × String)
  suggestions : String
deriving DecidableEq

/-- One entry of `active_sessions`.  `upload_file` always stores `file_path`,
`filename`, `status` and `analysis_complete`; the remaining keys appear later
and are optional. -/
structure Session where
  file_path : String
  filename : String
  status : String
  analysis_complete : Bool
  analysis : Option AnalysisResult
  stream_data : Option StreamData
  error : Option String
deriving DecidableEq

/-- The `active_sessions` dict. -/
def SessMap : Type := String → Option Session

def mapSet (m : SessMap) (k : String) (v : Option Session) : SessMap :=
  fun x => if x = k then v else m x

/-- An HTTPException: status code and detail. -/
structure HErr where
  status : Nat
  detail : String
deriving DecidableEq

/-- Response body of `POST /api/analyze/...` and of the cached-result branch
of `GET /api/analysis/...`. -/
structure AnalyzeResp where
  session_id : String
  status : String
  results : AnalysisResult
deriving DecidableEq

/-- External collaborators of the coordinator, as the spec's Timeline
Producer contract (§6): the full-path producer, the live reads of the shared
`is_fully_processed` flag during the polling wait (the flag is mutated
concurrently by the streaming service; `streamObs k` is the value seen by the
k-th read, and the spec guarantees it flips at most once, from false to
true), the filesystem, the streaming initializer, and the aggregate parts of
the stream-derived result that the spec leaves to the producer. -/
structure AnalyzeEnv where
  analyze_full : String → Except String AnalysisResult
  streamObs : Nat → Bool
  fileExists : String → Bool
  initialize_stream : String → StreamData
  summarizeStream : StreamData → SummaryData
  clustersStream : StreamData → List (String × String)
  suggestStream : StreamData → String

/-- Projection of the stream cache's parallel arrays into timeline samples
(the `(time, energy, emotion_raw, category)` tuples, zipped positionally). -/
def zipSamples : List ℚ → List ℚ → List String → List String → List TimelinePoint
  | t :: ts, e :: es, r :: rs, c :: cs => ⟨t, e, r, c⟩ :: zipSamples ts es rs cs
  | _, _, _, _ => []

def streamSamples (sd : StreamData) : List TimelinePoint :=
  zipSamples sd.timestamps sd.energy_timeline sd.emotion_series sd.categories

/-- Modelled from the spec: `build_analysis_from_stream` lives in
`services/realtime_service.py`, which is not among the provided sources.  Per
§4.1 and §8 it derives the `AnalysisResult` from the stream cache as a cheap
transform without re-invoking the Timeline Producer: the duration is copied
and the timeline is exactly `streamCache.samples` projected field-for-field;
the aggregate summary, clusters and suggestion text are computed from the
stream data by the producer side and are represented by the environment. -/
def build_analysis_from_stream (env : AnalyzeEnv) (sd : StreamData) : AnalysisResult :=
  { duration := sd.duration
  , timeline := streamSamples sd
  , summary := env.summarizeStream sd
  , clusters := env.clustersStream sd
  , suggestions := env.suggestStream sd }

/-- The stream cache synthesized from a from-scratch result at the end of the
full path of `analyze_meeting` (lines 175-195). -/
def streamFromResults (results : AnalysisResult) : StreamData :=
  { duration := results.duration
  , timestamps := results.timeline.map (fun p => p.time)
  , energy_timeline := results.timeline.map (fun p => p.energy)
  , emotion_series := results.timeline.map (fun p => p.emotion_raw)
  , categories := results.timeline.map (fun p => p.category)
  , sample_rate := 16000
  , is_fully_processed := true }

/-- Outcome of one `analyze_meeting` call: the HTTP response, the updated
session map, how many times the full-path producer (`analyze_full`) and the
stream-derivation transform (`build_analysis_from_stream`) ran, and how many
2-second sleeps the polling loop performed. -/
structure AnalyzeOutcome where
  resp : Except HErr AnalyzeResp
  sessions : SessMap
  fullCalls : Nat
  buildCalls : Nat
  sleeps : Nat

/-- `for _ in range(15)` at line 134. -/
def streamWaitAttempts : Nat := 15

/-- `await asyncio.sleep(2)` at line 139. -/
def streamWaitIntervalSeconds : Nat := 2

/-- The bounded polling loop of `analyze_meeting` (lines 134-139): starting
from read index `i` with `fuel` loop iterations left, return the index of the
read the code performs after the loop (line 142).  Breaking at iteration `i`
means `i` sleeps happened; exhausting the loop means 15 sleeps happened and
the post-loop check performs a 16th read.  The returned index therefore also
counts the sleeps. -/
def waitLoop (obs : Nat → Bool) (i : Nat) : Nat → Nat
  | 0 => i
  | fuel + 1 => if obs i then i else waitLoop obs (i + 1) fuel

/-- Lines 156-206 of `analyze_meeting`: the from-scratch full path, entered
with `sleeps` polling sleeps already performed. -/
def analyzeFullPath (env : AnalyzeEnv) (m : SessMap) (sid : String) (s : Session)
    (sleeps : Nat) : AnalyzeOutcome :=
  if env.fileExists s.file_path then
    match env.analyze_full s.file_path with
    | Except.error e =>
      let s2 := { s with status := "error", error := some e }
      ⟨Except.error ⟨500, "Analysis failed: " ++ e⟩, mapSet m sid (some s2), 1, 0, sleeps⟩
    | Except.ok results =>
      let s2 := { s with analysis := some results, analysis_complete := true,
                         status := "complete" }
      let s3 :=
        if s2.stream_data.isNone then
          { s2 with stream_data := some (streamFromResults results) }
        else s2
      ⟨Except.ok ⟨sid, "complete", results⟩, mapSet m sid (some s3), 1, 0, sleeps⟩
  else
    ⟨Except.error ⟨404, "File not found"⟩, m, 0, 0, sleeps⟩

/-- Lines 130-154 of `analyze_meeting`: the stream cache exists, so poll for
completion and either derive the result from the stream or fall through to
the full path. -/
def analyzeWithStream (env : AnalyzeEnv) (m : SessMap) (sid : String) (s : Session)
    (sd : StreamData) : AnalyzeOutcome :=
  let j := waitLoop env.streamObs 0 streamWaitAttempts
  if env.streamObs j then
    let results := build_analysis_from_stream env sd
    let s2 := { s with analysis := some results, analysis_complete := true,
                       status := "complete" }
    ⟨Except.ok ⟨sid, "complete", results⟩, mapSet m sid (some s2), 0, 1, j⟩
  else
    analyzeFullPath env m sid s j

/-- The part of `analyze_meeting` after the cached-analysis check failed. -/
def analyzeNoCache (env : AnalyzeEnv) (m : SessMap) (sid : String) (s : Session) :
    AnalyzeOutcome :=
  match s.stream_data with
  | some sd => analyzeWithStream env m sid s sd
  | none => analyzeFullPath env m sid s 0

/-- `POST /api/analyze/...` (`analyze_meeting`, lines 107-206). -/
def analyzeApp (env : AnalyzeEnv) (m : SessMap) (sid : String) : AnalyzeOutcome :=
  match m sid with
  | none => ⟨Except.error ⟨404, "Session not found"⟩, m, 0, 0, 0⟩
  | some s =>
    match s.analysis with
    | some r =>
      if s.analysis_complete then ⟨Except.ok ⟨sid, "complete", r⟩, m, 0, 0, 0⟩
      else analyzeNoCache env m sid s
    | none => analyzeNoCache env m sid s

/-- Response of `GET /api/analysis/...`: the complete branch carries the
cached record, the pending branch the current status string. -/
inductive GetResp where
  | complete (session_id : String) (results : Option AnalysisResult)
  | pending (session_id : String) (status : String) (message : String)
deriving DecidableEq

/-- `GET /api/analysis/...` (`get_analysis`, lines 209-228); never mutates. -/
def get_analysisApp (m : SessMap) (sid : String) : Except HErr GetResp :=
  match m sid with
  | none => Except.error ⟨404, "Session not found"⟩
  | some s =>
    if s.analysis_complete then Except.ok (GetResp.complete sid s.analysis)
    else Except.ok (GetResp.pending sid s.status "Analysis not complete")

/-- `['.mp4', '.mp3', '.wav', '.avi', '.mov', '.mkv']`. -/
def allowed_extensions : List String :=
  [".mp4", ".mp3", ".wav", ".avi", ".mov", ".mkv"]

structure UploadResp where
  session_id : String
  filename : String
  size : Nat
  message : String
deriving DecidableEq

/-- `tempfile.gettempdir()`. -/
def tempRoot : String := "/tmp"

/-- `POST /api/upload` (`upload_file`, lines 61-104).  The generated uuid is
the parameter `sid`, and `size` is `len(content)`. -/
def upload_fileApp (m : SessMap) (sid filename : String) (size : Nat) :
    Except HErr UploadResp × SessMap :=
  let file_ext := strLower (pathSuffix filename)
  if allowed_extensions.contains file_ext then
    let file_path := tempRoot ++ "/moodflo/" ++ sid ++ "/" ++ filename
    let s : Session :=
      { file_path := file_path, filename := filename, status := "uploaded",
        analysis_complete := false, analysis := none, stream_data := none,
        error := none }
    (Except.ok ⟨sid, filename, size, "File uploaded successfully"⟩,
      mapSet m sid (some s))
  else
    (Except.error ⟨400, "File type " ++ file_ext ++ " not supported. Allowed: "
        ++ joinWith ", " allowed_extensions⟩, m)

/-- `DELETE /api/session/...` (`delete_session`, lines 368-389): response,
updated map, and the backing file released (unlinked) by the call. -/
def delete_sessionApp (m : SessMap) (sid : String) :
    Except HErr String × SessMap × Option String :=
  match m sid with
  | none => (Except.error ⟨404, "Session not found"⟩, m, none)
  | some s =>
    (Except.ok "Session deleted successfully", mapSet m sid none, some s.file_path)

/-- `GET /api/video/...` (`get_video`, lines 346-365): on success the file
path served by the `FileResponse`. -/
def get_videoApp (fileExists : String → Bool) (m : SessMap) (sid : String) :
    Except HErr String :=
  match m sid with
  | none => Except.error ⟨404, "Session not found"⟩
  | some s =>
    if fileExists s.file_path then Except.ok s.file_path
    else Except.error ⟨404, "Video file not found"⟩

/-- Server-to-client messages of the websocket handler. -/
inductive WsMsg where
  | statusMsg (message : String)
  | ready (duration : ℚ) (message : String)
  | errMsg (message : String)
deriving DecidableEq

/-- The initialization phase of `/ws/stream/...` (`websocket_stream`, lines
231-291): the messages sent up to and including `ready`, and the updated
session map.  An unknown session id sends an error notice and closes without
touching the map. -/
def ws_initApp (env : AnalyzeEnv) (m : SessMap) (sid : String) :
    List WsMsg × SessMap :=
  match m sid with
  | none => ([WsMsg.errMsg "Session not found"], m)
  | some s =>
    match s.stream_data with
    | some sd => ([WsMsg.ready sd.duration "Ready for streaming"], m)
    | none =>
      let sd := env.initialize_stream s.file_path
      ([WsMsg.statusMsg "Initializing real-time analysis...",
        WsMsg.ready sd.duration "Ready for streaming"],
       mapSet m sid (some { s with stream_data := some sd }))

/-! ## Report generator (`modules/report_generator.py`).  `ReportGenerator`
captures `(results, session_id)` and `datetime.now()` at construction; the
construction-time clock value is the explicit `timestamp` argument below.
PDF bytes themselves are not representable, so the PDF model is the ordered
textual content handed to the document builder: each `Paragraph` text and
each `Table` cell grid of the `story` (styling, spacers and page breaks carry
no data and are omitted). -/

def isEmojiChar (c : Char) : Bool :=
  let n := c.toNat
  (0x1F600 ≤ n && n ≤ 0x1F64F) || (0x1F300 ≤ n && n ≤ 0x1F5FF) ||
  (0x1F680 ≤ n && n ≤ 0x1F6FF) || (0x1F1E0 ≤ n && n ≤ 0x1F1FF) ||
  (0x2702 ≤ n && n ≤ 0x27B0) || (0x24C2 ≤ n && n ≤ 0x1F251)

/-- `ReportGenerator.strip_emoji`: drop the characters of the emoji ranges,
then strip. -/
def strip_emoji (t : String) : String :=
  trimChars (String.mk (t.toList.filter (fun c => !(isEmojiChar c))))

inductive StoryElem where
  | para (text : String)
  | table (rows : List (List String))
deriving DecidableEq

/-- `max(1, int(30 / 5))`, the sampling stride of the timeline table. -/
def timelineStride : Nat := max 1 (30 / 5)

/-- `range(0, len(timeline), stride)`. -/
def strideIndices (n stride : Nat) : List Nat :=
  (List.range n).filter (fun i => i % stride == 0)

/-- `ReportGenerator.generate_pdf_report`: the textual content of the built
`story`, in order.  `timestamp` is `self.timestamp`, the construction-time
`datetime.now().strftime(...)` value. -/
def generate_pdf_story (results : AnalysisResult) (session_id timestamp : String) :
    List StoryElem :=
  let summary := results.summary
  let timeline := results.timeline
  [ StoryElem.para "MOODFLO"
  , StoryElem.para "Meeting Emotion Analysis Report"
  , StoryElem.table
      [ ["Generated:", timestamp]
      , ["Session ID:", strTake session_id 13 ++ "..."]
      , ["Duration:", format_time results.duration] ]
  , StoryElem.para "Executive Summary"
  , StoryElem.table
      [ ["Metric", "Value"]
      , ["Dominant Emotion", summary.dominant_emotion]
      , ["Average Energy Level", fmt1 summary.avg_energy]
      , ["Silence Percentage", fmt1 summary.silence_pct ++ "%"]
      , ["Participation Rate", fmt1 summary.participation ++ "%"]
      , ["Emotional Volatility", fmt2 summary.volatility]
      , ["Psychological Safety", summary.psych_risk] ]
  , StoryElem.para "AI-Powered Insights and Recommendations" ]
  ++ ((splitOnChar '\n' results.suggestions).filter
        (fun line => trimChars line ≠ "")).map StoryElem.para
  ++ [ StoryElem.para "Emotion Distribution"
     , StoryElem.table ([ ["Emotion", "Percentage"] ]
         ++ summary.distribution.map (fun p => [p.1, fmt1 p.2 ++ "%"]))
     , StoryElem.para "Emotion Timeline - 30-second intervals"
     , StoryElem.table ([ ["Time", "Emotion", "Energy"] ]
         ++ (strideIndices timeline.length timelineStride).map (fun i =>
              match timeline.get? i with
              | some point =>
                [format_time point.time, strip_emoji point.category, fmt1 point.energy]
              | none => []))
     , StoryElem.para "This report is confidential and intended for internal use only."
     , StoryElem.para "Data processed locally - no information sent to external servers." ]

structure JsonMeta where
  session_id : String
  generated : String
  duration : ℚ
deriving DecidableEq

/-- The document returned by `ReportGenerator.generate_json_report`. -/
structure JsonReport where
  metadata : JsonMeta
  summary : SummaryData
  timeline : List TimelinePoint
  clusters : List (String × String)
  suggestions : String
  version : String
deriving DecidableEq

/-- `ReportGenerator.generate_json_report`.  `timestamp` is `self.timestamp`,
the construction-time `datetime.now().strftime(...)` value. -/
def generate_json_report (results : AnalysisResult) (session_id timestamp : String) :
    JsonReport :=
  { metadata := ⟨session_id, timestamp, results.duration⟩
  , summary := results.summary
  , timeline := results.timeline
  , clusters := results.clusters
  , suggestions := results.suggestions
  , version := "2.0.0" }

/-- `GET /api/export/{id}/json` (`export_json`, lines 419-439). -/
def export_jsonApp (m : SessMap) (sid now : String) : Except HErr JsonReport :=
  match m sid with
  | none => Except.error ⟨404, "Session not found"⟩
  | some s =>
    if s.analysis_complete then
      match s.analysis with
      | some r => Except.ok (generate_json_report r sid now)
      | none => Except.error ⟨500, "Internal Server Error"⟩
    else Except.error ⟨400, "Analysis not complete"⟩

/-- `GET /api/export/{id}/pdf` (`export_pdf`, lines 392-416), modelled down
to the story content. -/
def export_pdfApp (m : SessMap) (sid now : String) : Except HErr (List StoryElem) :=
  match m sid with
  | none => Except.error ⟨404, "Session not found"⟩
  | some s =>
    if s.analysis_complete then
      match s.analysis with
      | some r => Except.ok (generate_pdf_story r sid now)
      | none => Except.error ⟨500, "Internal Server Error"⟩
    else Except.error ⟨400, "Analysis not complete"⟩

/-- The JSON report with its generation timestamp blanked, used to compare
two exports of the same session made at different times. -/
def eraseGenerated (j : JsonReport) : JsonReport :=
  { j with metadata := { j.metadata with generated := "" } }

/-- A story table row with its value cell blanked when it is the
`"Generated:"` row of the report-info table. -/
def scrubRow (row : List String) : List String :=
  if row.headD "" == "Generated:" then ["Generated:", ""] else row

def scrubElem : StoryElem → StoryElem
  | StoryElem.para t => StoryElem.para t
  | StoryElem.table rows => StoryElem.table (rows.map scrubRow)

def scrubStory (story : List StoryElem) : List StoryElem :=
  story.map scrubElem

/-! ## Invariants and sample data. -/

/-- The spec's data-model invariant (§3): a present `analysisCache` implies
status `Complete` — and the code additionally keeps `analysis_complete` in
step. -/
def SessionInv (s : Session) : Prop :=
  s.analysis.isSome = true → s.status = "complete" ∧ s.analysis_complete = true

def MapInv (m : SessMap) : Prop :=
  ∀ sid s, m sid = some s → SessionInv s

def sampleSummary : SummaryData :=
  { dominant_emotion := "🔥 Stressed/Tense", avg_energy := 55, silence_pct := 42,
    participation := 61, volatility := mkRat 75 10, psych_risk := "High",
    distribution := [("🔥 Stressed/Tense", 60)] }

def samplePoints : List TimelinePoint :=
  [ ⟨0, 50, "stressed", "🔥 Stressed/Tense"⟩
  , ⟨5, 60, "neutral", "💬 Thoughtful/Constructive"⟩ ]

def sampleResult : AnalysisResult :=
  { duration := 95, timeline := samplePoints, summary := sampleSummary,
    clusters := [], suggestions := "Keep the next meeting short" }

def sampleStream : StreamData :=
  { duration := 95, timestamps := [0, 5], energy_timeline := [50, 60],
    emotion_series := ["stressed", "neutral"],
    categories := ["🔥 Stressed/Tense", "💬 Thoughtful/Constructive"],
    sample_rate := 16000, is_fully_processed := true }

def uploadedSession : Session :=
  { file_path := "/tmp/moodflo/s1/video.mp4", filename := "video.mp4",
    status := "uploaded", analysis_complete := false, analysis := none,
    stream_data := none, error := none }

def streamingSession : Session :=
  { uploadedSession with stream_data := some sampleStream, status := "uploaded" }

def emptySessions : SessMap := fun _ => none

def oneSession (s : Session) : SessMap :=
  fun k => if k = "s1" then some s else none

def envOkNoStream : AnalyzeEnv :=
  { analyze_full := fun _ => Except.ok sampleResult
  , streamObs := fun _ => false
  , fileExists := fun _ => true
  , initialize_stream := fun _ => sampleStream
  , summarizeStream := fun _ => sampleSummary
  , clustersStream := fun _ => []
  , suggestStream := fun _ => "Keep the next meeting short" }

def envFail : AnalyzeEnv :=
  { envOkNoStream with analyze_full := fun _ => Except.error "decode failure" }

def envStreamReady : AnalyzeEnv :=
  { envOkNoStream with streamObs := fun _ => true }

def neutralLowData : SummaryData :=
  { dominant_emotion := "Neutral", avg_energy := 50, silence_pct := 10,
    participation := 80, volatility := 1, psych_risk := "Low", distribution := [] }

/-! ## Theorems. -/

theorem mapSet_same (m : SessMap) (k : String) (v : Option Session) :
    mapSet m k v k = v := by
  simp [mapSet]

theorem mapSet_other (m : SessMap) (k k' : String) (v : Option Session)
    (h : k' ≠ k) : mapSet m k v k' = m k' := by
  simp [mapSet, h]

theorem waitLoop_head_true (obs : Nat → Bool) (i fuel : Nat) (h : obs i = true) :
    waitLoop obs i (fuel + 1) = i := by
  simp [waitLoop, h]

theorem waitLoop_exhausts (obs : Nat → Bool) :
    ∀ fuel i, (∀ k, k < i + fuel → obs k = false) → waitLoop obs i fuel = i + fuel := by
  intro fuel
  induction fuel with
  | zero => intro i _; simp [waitLoop]
  | succ n ih =>
    intro i h
    have hi : obs i = false := h i (by omega)
    have := ih (i + 1) (fun k hk => h k (by omega))
    simp [waitLoop, hi, this]
    omega

/-- C2: when the stream cache is already fully processed at call time (the
first read of the shared flag is true) and no analysis is cached yet,
`analyze_meeting` performs no full-path producer call and no polling sleep,
returns the result derived from the stream cache, and that derived result's
timeline is exactly the stream cache's samples projected field-for-field. -/
theorem analyze_uses_completed_stream (env : AnalyzeEnv) (m : SessMap)
    (sid : String) (s : Session) (sd : StreamData)
    (hm : m sid = some s) (hA : s.analysis = none)
    (hsd : s.stream_data = some sd)
    (hobs : env.streamObs 0 = true) :
    (analyzeApp env m sid).fullCalls = 0 ∧
    (analyzeApp env m sid).sleeps = 0 ∧
    (analyzeApp env m sid).resp =
      Except.ok ⟨sid, "complete", build_analysis_from_stream env sd⟩ ∧
    (analyzeApp env m sid).sessions sid = some
      { s with analysis := some (build_analysis_from_stream env sd),
               analysis_complete := true, status := "complete" } ∧
    (build_analysis_from_stream env sd).timeline = streamSamples sd := by
  have hw : waitLoop env.streamObs 0 streamWaitAttempts = 0 := by
    rw [show streamWaitAttempts = 14 + 1 from rfl]
    exact waitLoop_head_true _ _ _ hobs
  simp [analyzeApp, hm, hA, analyzeNoCache, hsd, analyzeWithStream, hw, hobs,
    mapSet_same, build_analysis_from_stream]

theorem analyze_uses_completed_stream_witness :
    oneSession streamingSession "s1" = some streamingSession ∧
    streamingSession.analysis = none ∧
    streamingSession.stream_data = some sampleStream ∧
    envStreamReady.streamObs 0 = true ∧
    (analyzeApp envStreamReady (oneSession streamingSession) "s1").fullCalls = 0 ∧
    (analyzeApp envStreamReady (oneSession streamingSession) "s1").resp =
      Except.ok ⟨"s1", "complete", build_analysis_from_stream envStreamReady sampleStream⟩ ∧
    (build_analysis_from_stream envStreamReady sampleStream).timeline =
      streamSamples sampleStream := by
  have h := analyze_uses_completed_stream envStreamReady (oneSession streamingSession)
    "s1" streamingSession sampleStream rfl rfl rfl rfl
  exact ⟨rfl, rfl, rfl, rfl, h.1, h.2.2.1, h.2.2.2.2⟩

/-- C3: with a stream cache present that never reports completion, the wait
is a bounded polling loop — 15 attempts at a 2-second interval, 30 seconds in
all — after which the call falls through to exactly one from-scratch full
computation, and the exhausted wait is not surfaced as an error: the call
still answers with the computed result. -/
theorem analyze_stream_timeout (env : AnalyzeEnv) (m : SessMap) (sid : String)
    (s : Session) (sd : StreamData) (r : AnalysisResult)
    (hm : m sid = some s) (hA : s.analysis = none)
    (hsd : s.stream_data = some sd)
    (hobs : ∀ k, k ≤ streamWaitAttempts → env.streamObs k = false)
    (hfile : env.fileExists s.file_path = true)
    (hfull : env.analyze_full s.file_path = Except.ok r) :
    (analyzeApp env m sid).sleeps = streamWaitAttempts ∧
    streamWaitAttempts = 15 ∧ streamWaitIntervalSeconds = 2 ∧
    streamWaitIntervalSeconds * (analyzeApp env m sid).sleeps = 30 ∧
    (analyzeApp env m sid).fullCalls = 1 ∧
    (analyzeApp env m sid).buildCalls = 0 ∧
    (analyzeApp env m sid).resp = Except.ok ⟨sid, "complete", r⟩ := by
  have hw : waitLoop env.streamObs 0 15 = 15 := by
    have := waitLoop_exhausts env.streamObs streamWaitAttempts 0
      (fun k hk => hobs k (by simp [streamWaitAttempts] at hk ⊢; omega))
    simpa [streamWaitAttempts] using this
  have hat : env.streamObs 15 = false := hobs 15 (by norm_num [streamWaitAttempts])
  simp [analyzeApp, hm, hA, analyzeNoCache, hsd, analyzeWithStream, hw, hat,
    analyzeFullPath, hfile, hfull, streamWaitAttempts, streamWaitIntervalSeconds]

theorem analyze_stream_timeout_witness :
    oneSession streamingSession "s1" = some streamingSession ∧
    (∀ k, k ≤ streamWaitAttempts → envOkNoStream.streamObs k = false) ∧
    (analyzeApp envOkNoStream (oneSession streamingSession) "s1").sleeps = streamWaitAttempts ∧
    (analyzeApp envOkNoStream (oneSession streamingSession) "s1").fullCalls = 1 ∧
    (analyzeApp envOkNoStream (oneSession streamingSession) "s1").resp =
      Except.ok ⟨"s1", "complete", sampleResult⟩ := by
  have h := analyze_stream_timeout envOkNoStream (oneSession streamingSession) "s1"
    streamingSession sampleStream sampleResult rfl rfl rfl (fun k _ => rfl) rfl rfl
  exact ⟨rfl, fun k _ => rfl, h.1, h.2.2.2.2.1, h.2.2.2.2.2.2⟩


theorem fullPath_ok_caches (env : AnalyzeEnv) (m : SessMap) (sid : String)
    (s : Session) (sleeps : Nat) (r : AnalyzeResp)
    (h : (analyzeFullPath env m sid s sleeps).resp = Except.ok r) :
    r.session_id = sid ∧ r.status = "complete" ∧
    ∃ s', (analyzeFullPath env m sid s sleeps).sessions sid = some s' ∧
      s'.analysis = some r.results ∧ s'.analysis_complete = true := by
  unfold analyzeFullPath at h ⊢
  cases hf : env.fileExists s.file_path with
  | false => rw [hf] at h; simp at h
  | true =>
    rw [hf] at h
    cases hfull : env.analyze_full s.file_path with
    | error e => rw [hfull] at h; simp at h
    | ok results =>
      rw [hfull] at h
      simp only [Bool.true_eq, if_true, Except.ok.injEq] at h
      subst h
      refine ⟨rfl, rfl, ?_⟩
      cases hsd : s.stream_data <;> simp [hsd, mapSet_same]

theorem withStream_ok_caches (env : AnalyzeEnv) (m : SessMap) (sid : String)
    (s : Session) (sd : StreamData) (r : AnalyzeResp)
    (h : (analyzeWithStream env m sid s sd).resp = Except.ok r) :
    r.session_id = sid ∧ r.status = "complete" ∧
    ∃ s', (analyzeWithStream env m sid s sd).sessions sid = some s' ∧
      s'.analysis = some r.results ∧ s'.analysis_complete = true := by
  unfold analyzeWithStream at h ⊢
  cases ho : env.streamObs (waitLoop env.streamObs 0 streamWaitAttempts) with
  | false =>
    simp only [ho, Bool.false_eq_true, if_false] at h ⊢
    exact fullPath_ok_caches env m sid s _ r h
  | true =>
    simp only [ho, if_true, Except.ok.injEq] at h
    subst h
    refine ⟨rfl, rfl,
      { s with analysis := some (build_analysis_from_stream env sd),
               analysis_complete := true, status := "complete" }, ?_, rfl, rfl⟩
    simp only [ho, if_true]
    exact mapSet_same m sid _

theorem noCache_ok_caches (env : AnalyzeEnv) (m : SessMap) (sid : String)
    (s : Session) (r : AnalyzeResp)
    (h : (analyzeNoCache env m sid s).resp = Except.ok r) :
    r.session_id = sid ∧ r.status = "complete" ∧
    ∃ s', (analyzeNoCache env m sid s).sessions sid = some s' ∧
      s'.analysis = some r.results ∧ s'.analysis_complete = true := by
  unfold analyzeNoCache at h ⊢
  generalize hsd : s.stream_data = osd at h ⊢
  cases osd with
  | some sd =>
    simp only [] at h ⊢
    exact withStream_ok_caches env m sid s sd r h
  | none =>
    simp only [] at h ⊢
    exact fullPath_ok_caches env m sid s 0 r h

theorem analyze_ok_caches (env : AnalyzeEnv) (m : SessMap) (sid : String)
    (r : AnalyzeResp) (h : (analyzeApp env m sid).resp = Except.ok r) :
    r.session_id = sid ∧ r.status = "complete" ∧
    ∃ s', (analyzeApp env m sid).sessions sid = some s' ∧
      s'.analysis = some r.results ∧ s'.analysis_complete = true := by
  unfold analyzeApp at h ⊢
  generalize hm : m sid = o at h ⊢
  cases o with
  | none => simp at h
  | some s =>
    simp only [] at h ⊢
    generalize hA : s.analysis = oa at h ⊢
    cases oa with
    | some rc =>
      simp only [] at h ⊢
      generalize hC : s.analysis_complete = b at h ⊢
      cases b with
      | true =>
        simp only [if_true, Except.ok.injEq] at h
        subst h
        refine ⟨rfl, rfl, s, ?_, hA, hC⟩
        simp only [if_true]
        exact hm
      | false =>
        simp only [Bool.false_eq_true, if_false] at h ⊢
        exact noCache_ok_caches env m sid s r h
    | none =>
      simp only [] at h ⊢
      exact noCache_ok_caches env m sid s r h

theorem fullPath_fullCalls_le_one (env : AnalyzeEnv) (m : SessMap) (sid : String)
    (s : Session) (k : Nat) : (analyzeFullPath env m sid s k).fullCalls ≤ 1 := by
  unfold analyzeFullPath
  repeat' split
  all_goals first
  | exact Nat.zero_le 1
  | exact Nat.le_refl 1

theorem withStream_fullCalls_le_one (env : AnalyzeEnv) (m : SessMap) (sid : String)
    (s : Session) (sd : StreamData) :
    (analyzeWithStream env m sid s sd).fullCalls ≤ 1 := by
  unfold analyzeWithStream
  cases ho : env.streamObs (waitLoop env.streamObs 0 streamWaitAttempts) with
  | false =>
    simp only [ho, Bool.false_eq_true, if_false]
    exact fullPath_fullCalls_le_one env m sid s _
  | true =>
    simp only [ho, if_true]
    exact Nat.zero_le 1

theorem noCache_fullCalls_le_one (env : AnalyzeEnv) (m : SessMap) (sid : String)
    (s : Session) : (analyzeNoCache env m sid s).fullCalls ≤ 1 := by
  unfold analyzeNoCache
  cases s.stream_data with
  | some sd => exact withStream_fullCalls_le_one env m sid s sd
  | none => exact fullPath_fullCalls_le_one env m sid s 0


theorem analyze_fullCalls_le_one (env : AnalyzeEnv) (m : SessMap) (sid : String) :
    (analyzeApp env m sid).fullCalls ≤ 1 := by
  unfold analyzeApp
  cases m sid with
  | none => exact Nat.zero_le 1
  | some s =>
    simp only []
    cases s.analysis with
    | some rc =>
      simp only []
      cases s.analysis_complete with
      | true => exact Nat.zero_le 1
      | false => exact noCache_fullCalls_le_one env m sid s
    | none => exact noCache_fullCalls_le_one env m sid s

theorem analyze_cache_hit (env : AnalyzeEnv) (m : SessMap) (sid : String)
    (s : Session) (r : AnalysisResult)
    (hm : m sid = some s) (hA : s.analysis = some r) (hC : s.analysis_complete = true) :
    analyzeApp env m sid = ⟨Except.ok ⟨sid, "complete", r⟩, m, 0, 0, 0⟩ := by
  simp [analyzeApp, hm, hA, hC]

/-- C1: once a call to `analyze_meeting` has answered successfully, the
cached analysis and the completion flag are set, so a second call in
sequence is a pure cache hit: it returns the identical response, mutates
nothing, performs no producer work, and across the two calls the full-path
producer ran at most once. -/
theorem startFullAnalysis_idempotent (env1 env2 : AnalyzeEnv) (m : SessMap)
    (sid : String) (r1 : AnalyzeResp)
    (h : (analyzeApp env1 m sid).resp = Except.ok r1) :
    (analyzeApp env2 (analyzeApp env1 m sid).sessions sid).resp = Except.ok r1 ∧
    (analyzeApp env2 (analyzeApp env1 m sid).sessions sid).sessions =
      (analyzeApp env1 m sid).sessions ∧
    (analyzeApp env2 (analyzeApp env1 m sid).sessions sid).fullCalls = 0 ∧
    (analyzeApp env2 (analyzeApp env1 m sid).sessions sid).buildCalls = 0 ∧
    (analyzeApp env1 m sid).fullCalls +
      (analyzeApp env2 (analyzeApp env1 m sid).sessions sid).fullCalls ≤ 1 := by
  obtain ⟨hsid, hst, s', hs', hA, hC⟩ := analyze_ok_caches env1 m sid r1 h
  have hr : r1 = ⟨sid, "complete", r1.results⟩ := by
    cases r1
    simp only [AnalyzeResp.mk.injEq]
    exact ⟨hsid, hst, trivial⟩
  have h2 : analyzeApp env2 (analyzeApp env1 m sid).sessions sid =
      ⟨Except.ok ⟨sid, "complete", r1.results⟩, (analyzeApp env1 m sid).sessions,
        0, 0, 0⟩ :=
    analyze_cache_hit env2 _ sid s' r1.results hs' hA hC
  have hle := analyze_fullCalls_le_one env1 m sid
  rw [h2]
  exact ⟨congrArg Except.ok hr.symm, rfl, rfl, rfl, by simpa using hle⟩

theorem startFullAnalysis_idempotent_witness :
    (analyzeApp envOkNoStream (oneSession uploadedSession) "s1").resp =
      Except.ok ⟨"s1", "complete", sampleResult⟩ ∧
    (analyzeApp envFail
        (analyzeApp envOkNoStream (oneSession uploadedSession) "s1").sessions
        "s1").resp = Except.ok ⟨"s1", "complete", sampleResult⟩ ∧
    (analyzeApp envOkNoStream (oneSession uploadedSession) "s1").fullCalls +
      (analyzeApp envFail
        (analyzeApp envOkNoStream (oneSession uploadedSession) "s1").sessions
        "s1").fullCalls ≤ 1 := by
  have h := startFullAnalysis_idempotent envOkNoStream envFail
    (oneSession uploadedSession) "s1" ⟨"s1", "complete", sampleResult⟩ rfl
  exact ⟨rfl, h.1, h.2.2.2.2⟩

theorem mapSet_some_inv (m : SessMap) (sid : String) (s : Session)
    (hm : MapInv m) (hs : SessionInv s) : MapInv (mapSet m sid (some s)) := by
  intro k s' hk
  by_cases h : k = sid
  · subst h
    rw [mapSet_same] at hk
    cases hk
    exact hs
  · rw [mapSet_other m sid k _ h] at hk
    exact hm k s' hk

theorem mapSet_none_inv (m : SessMap) (sid : String) (hm : MapInv m) :
    MapInv (mapSet m sid none) := by
  intro k s' hk
  by_cases h : k = sid
  · subst h
    rw [mapSet_same] at hk
    cases hk
  · rw [mapSet_other m sid k _ h] at hk
    exact hm k s' hk

theorem fullPath_preserves_inv (env : AnalyzeEnv) (m : SessMap) (sid : String)
    (s : Session) (k : Nat) (hm : MapInv m) (hA : s.analysis = none) :
    MapInv (analyzeFullPath env m sid s k).sessions := by
  unfold analyzeFullPath
  cases hf : env.fileExists s.file_path with
  | false => exact hm
  | true =>
    cases hfull : env.analyze_full s.file_path with
    | error e =>
      refine mapSet_some_inv m sid _ hm ?_
      intro hsome
      simp [hA] at hsome
    | ok results =>
      cases hsd : s.stream_data with
      | none => exact mapSet_some_inv m sid _ hm (fun _ => ⟨rfl, rfl⟩)
      | some sd0 => exact mapSet_some_inv m sid _ hm (fun _ => ⟨rfl, rfl⟩)

theorem withStream_preserves_inv (env : AnalyzeEnv) (m : SessMap) (sid : String)
    (s : Session) (sd : StreamData) (hm : MapInv m) (hA : s.analysis = none) :
    MapInv (analyzeWithStream env m sid s sd).sessions := by
  unfold analyzeWithStream
  cases ho : env.streamObs (waitLoop env.streamObs 0 streamWaitAttempts) with
  | false =>
    simp only [ho, Bool.false_eq_true, if_false]
    exact fullPath_preserves_inv env m sid s _ hm hA
  | true =>
    simp only [ho, if_true]
    exact mapSet_some_inv m sid _ hm (fun _ => ⟨rfl, rfl⟩)

theorem noCache_preserves_inv (env : AnalyzeEnv) (m : SessMap) (sid : String)
    (s : Session) (hm : MapInv m) (hA : s.analysis = none) :
    MapInv (analyzeNoCache env m sid s).sessions := by
  unfold analyzeNoCache
  cases hsd : s.stream_data with
  | some sd => exact withStream_preserves_inv env m sid s sd hm hA
  | none => exact fullPath_preserves_inv env m sid s 0 hm hA

theorem analyze_preserves_inv (env : AnalyzeEnv) (m : SessMap) (sid : String)
    (hm : MapInv m) : MapInv (analyzeApp env m sid).sessions := by
  unfold analyzeApp
  cases hms : m sid with
  | none => exact hm
  | some s =>
    simp only []
    cases hA : s.analysis with
    | some rc =>
      simp only []
      have hC : s.analysis_complete = true :=
        (hm sid s hms (by rw [hA]; rfl)).2
      rw [hC]
      simp only [if_true]
      exact hm
    | none => exact noCache_preserves_inv env m sid s hm hA

theorem wsInit_preserves_inv (env : AnalyzeEnv) (m : SessMap) (sid : String)
    (hm : MapInv m) : MapInv (ws_initApp env m sid).2 := by
  unfold ws_initApp
  cases hms : m sid with
  | none => exact hm
  | some s =>
    simp only []
    cases hsd : s.stream_data with
    | some sd => exact hm
    | none =>
      refine mapSet_some_inv m sid _ hm ?_
      intro hsome
      exact hm sid s hms hsome

theorem upload_preserves_inv (m : SessMap) (sid filename : String) (size : Nat)
    (hm : MapInv m) : MapInv (upload_fileApp m sid filename size).2 := by
  unfold upload_fileApp
  simp only []
  cases hal : allowed_extensions.contains (strLower (pathSuffix filename)) with
  | false =>
    simp only [hal, Bool.false_eq_true, if_false]
    exact hm
  | true =>
    simp only [hal, if_true]
    refine mapSet_some_inv m sid _ hm ?_
    intro hsome
    simp at hsome

theorem delete_preserves_inv (m : SessMap) (sid : String) (hm : MapInv m) :
    MapInv (delete_sessionApp m sid).2.1 := by
  unfold delete_sessionApp
  cases hms : m sid with
  | none => exact hm
  | some s => exact mapSet_none_inv m sid hm

/-- C4: the data-model invariant "analysis cache present implies status
complete (and the completion flag set)" is preserved by every state-mutating
operation of the coordinator — upload, analyze, websocket stream
initialization and delete — because each step that stores an analysis also
sets `status = "complete"` and `analysis_complete = true` in the same step,
and no step stores one otherwise. -/
theorem analysisCache_implies_complete (env : AnalyzeEnv) (m : SessMap)
    (sid filename : String) (size : Nat) (hm : MapInv m) :
    MapInv (upload_fileApp m sid filename size).2 ∧
    MapInv (analyzeApp env m sid).sessions ∧
    MapInv (ws_initApp env m sid).2 ∧
    MapInv (delete_sessionApp m sid).2.1 ∧
    (∀ s', (analyzeApp env m sid).sessions sid = some s' →
      s'.analysis.isSome = true → s'.status = "complete" ∧ s'.analysis_complete = true) := by
  refine ⟨upload_preserves_inv m sid filename size hm,
    analyze_preserves_inv env m sid hm,
    wsInit_preserves_inv env m sid hm,
    delete_preserves_inv m sid hm,
    fun s' h => analyze_preserves_inv env m sid hm sid s' h⟩

theorem analysisCache_implies_complete_witness :
    MapInv (oneSession uploadedSession) ∧
    MapInv (analyzeApp envOkNoStream (oneSession uploadedSession) "s1").sessions ∧
    MapInv (ws_initApp envOkNoStream (oneSession uploadedSession) "s1").2 := by
  have hminv : MapInv (oneSession uploadedSession) := by
    intro k s hk
    unfold oneSession at hk
    split at hk
    · cases hk
      intro hsome
      simp [uploadedSession] at hsome
    · cases hk
  have h := analysisCache_implies_complete envOkNoStream (oneSession uploadedSession)
    "s1" "video.mp4" 10 hminv
  exact ⟨hminv, h.2.1, h.2.2.1⟩

/-- C7: when the full-path producer fails, `analyze_meeting` surfaces a 500
error carrying the failure message to that caller, moves the session to
status `"error"` with the message stored under `session["error"]`, and does
not destroy the session: it is still in the map, `get_analysis` still
answers (reporting the `"error"` status), and a later delete still succeeds
and releases the backing file. -/
theorem producer_failure_keeps_session (env : AnalyzeEnv) (m : SessMap)
    (sid : String) (s : Session) (msg : String)
    (hm : m sid = some s) (hA : s.analysis = none) (hC : s.analysis_complete = false)
    (hsd : s.stream_data = none)
    (hfile : env.fileExists s.file_path = true)
    (hfull : env.analyze_full s.file_path = Except.error msg) :
    (analyzeApp env m sid).resp =
      Except.error ⟨500, "Analysis failed: " ++ msg⟩ ∧
    (analyzeApp env m sid).sessions sid =
      some { s with status := "error", error := some msg } ∧
    get_analysisApp (analyzeApp env m sid).sessions sid =
      Except.ok (GetResp.pending sid "error" "Analysis not complete") ∧
    (delete_sessionApp (analyzeApp env m sid).sessions sid).1 =
      Except.ok "Session deleted successfully" ∧
    (delete_sessionApp (analyzeApp env m sid).sessions sid).2.1 sid = none ∧
    (delete_sessionApp (analyzeApp env m sid).sessions sid).2.2 = some s.file_path := by
  have hout : analyzeApp env m sid =
      ⟨Except.error ⟨500, "Analysis failed: " ++ msg⟩,
        mapSet m sid (some { s with status := "error", error := some msg }),
        1, 0, 0⟩ := by
    simp [analyzeApp, hm, hA, analyzeNoCache, hsd, analyzeFullPath, hfile, hfull]
  rw [hout]
  refine ⟨rfl, mapSet_same m sid _, ?_, ?_, ?_, ?_⟩
  · simp [get_analysisApp, mapSet_same, hC]
  · simp [delete_sessionApp, mapSet_same]
  · simp [delete_sessionApp, mapSet_same]
  · simp [delete_sessionApp, mapSet_same]

theorem producer_failure_keeps_session_witness :
    oneSession uploadedSession "s1" = some uploadedSession ∧
    envFail.analyze_full uploadedSession.file_path = Except.error "decode failure" ∧
    (analyzeApp envFail (oneSession uploadedSession) "s1").resp =
      Except.error ⟨500, "Analysis failed: " ++ "decode failure"⟩ ∧
    get_analysisApp (analyzeApp envFail (oneSession uploadedSession) "s1").sessions "s1" =
      Except.ok (GetResp.pending "s1" "error" "Analysis not complete") := by
  have h := producer_failure_keeps_session envFail (oneSession uploadedSession)
    "s1" uploadedSession "decode failure" rfl rfl rfl rfl rfl rfl
  exact ⟨rfl, rfl, h.1, h.2.2.1⟩

/-- C9: deleting an existing session succeeds, releases the backing file,
and removes the record; afterwards every operation on that id — analyze,
get-analysis, the websocket stream handshake, video serving, PDF and JSON
export, and a second delete — fails with the "Session not found" outcome,
and the analyze attempt performs no producer work and leaves the map
unchanged, so no cached analysis or stream data remains observable. -/
theorem delete_then_notfound (env : AnalyzeEnv) (m : SessMap) (sid now : String)
    (s : Session) (hm : m sid = some s) :
    (delete_sessionApp m sid).1 = Except.ok "Session deleted successfully" ∧
    (delete_sessionApp m sid).2.2 = some s.file_path ∧
    (delete_sessionApp m sid).2.1 sid = none ∧
    (analyzeApp env (delete_sessionApp m sid).2.1 sid).resp =
      Except.error ⟨404, "Session not found"⟩ ∧
    (analyzeApp env (delete_sessionApp m sid).2.1 sid).sessions =
      (delete_sessionApp m sid).2.1 ∧
    (analyzeApp env (delete_sessionApp m sid).2.1 sid).fullCalls = 0 ∧
    get_analysisApp (delete_sessionApp m sid).2.1 sid =
      Except.error ⟨404, "Session not found"⟩ ∧
    (ws_initApp env (delete_sessionApp m sid).2.1 sid).1 =
      [WsMsg.errMsg "Session not found"] ∧
    (ws_initApp env (delete_sessionApp m sid).2.1 sid).2 =
      (delete_sessionApp m sid).2.1 ∧
    get_videoApp env.fileExists (delete_sessionApp m sid).2.1 sid =
      Except.error ⟨404, "Session not found"⟩ ∧
    export_jsonApp (delete_sessionApp m sid).2.1 sid now =
      Except.error ⟨404, "Session not found"⟩ ∧
    export_pdfApp (delete_sessionApp m sid).2.1 sid now =
      Except.error ⟨404, "Session not found"⟩ ∧
    (delete_sessionApp (delete_sessionApp m sid).2.1 sid).1 =
      Except.error ⟨404, "Session not found"⟩ := by
  have hd : delete_sessionApp m sid =
      (Except.ok "Session deleted successfully", mapSet m sid none, some s.file_path) := by
    simp [delete_sessionApp, hm]
  rw [hd]
  have hnone : mapSet m sid none sid = none := mapSet_same m sid none
  refine ⟨rfl, rfl, hnone, ?_, ?_, ?_, ?_, ?_, ?_, ?_, ?_, ?_, ?_⟩ <;>
    simp [analyzeApp, get_analysisApp, ws_initApp, get_videoApp, export_jsonApp,
      export_pdfApp, delete_sessionApp, hnone]

theorem delete_then_notfound_witness :
    oneSession uploadedSession "s1" = some uploadedSession ∧
    (delete_sessionApp (oneSession uploadedSession) "s1").1 =
      Except.ok "Session deleted successfully" ∧
    (delete_sessionApp (oneSession uploadedSession) "s1").2.2 =
      some uploadedSession.file_path ∧
    (analyzeApp envOkNoStream
        (delete_sessionApp (oneSession uploadedSession) "s1").2.1 "s1").resp =
      Except.error ⟨404, "Session not found"⟩ ∧
    get_analysisApp (delete_sessionApp (oneSession uploadedSession) "s1").2.1 "s1" =
      Except.error ⟨404, "Session not found"⟩ := by
  have h := delete_then_notfound envOkNoStream (oneSession uploadedSession)
    "s1" "now" uploadedSession rfl
  exact ⟨rfl, h.1, h.2.1, h.2.2.2.1, h.2.2.2.2.2.2.1⟩

/-- C10: `upload_file` accepts a file exactly when the lowercased extension
of its filename is one of .mp4, .mp3, .wav, .avi, .mov, .mkv; any other
extension is rejected with a 400 error and no session is created, while an
accepted upload creates a fresh session in status "uploaded" with the
completion flag cleared and neither an analysis cache nor a stream cache,
touching no other key of the map. -/
theorem upload_validation (m : SessMap) (sid filename : String) (size : Nat) :
    (allowed_extensions.contains (strLower (pathSuffix filename)) = false →
      (upload_fileApp m sid filename size).1 =
        Except.error ⟨400, "File type " ++ strLower (pathSuffix filename) ++
          " not supported. Allowed: " ++ joinWith ", " allowed_extensions⟩ ∧
      (upload_fileApp m sid filename size).2 = m) ∧
    (allowed_extensions.contains (strLower (pathSuffix filename)) = true →
      (upload_fileApp m sid filename size).1 =
        Except.ok ⟨sid, filename, size, "File uploaded successfully"⟩ ∧
      (upload_fileApp m sid filename size).2 sid = some
        { file_path := tempRoot ++ "/moodflo/" ++ sid ++ "/" ++ filename,
          filename := filename, status := "uploaded", analysis_complete := false,
          analysis := none, stream_data := none, error := none } ∧
      (∀ k, k ≠ sid → (upload_fileApp m sid filename size).2 k = m k)) := by
  constructor
  · intro hbad
    unfold upload_fileApp
    simp only [hbad, Bool.false_eq_true, if_false]
    exact ⟨trivial, trivial⟩
  · intro hok
    unfold upload_fileApp
    simp only [hok, if_true]
    exact ⟨trivial, mapSet_same m sid _, fun k hk => mapSet_other m sid k _ hk⟩

theorem upload_validation_witness :
    allowed_extensions.contains (strLower (pathSuffix "notes.txt")) = false ∧
    (upload_fileApp emptySessions "s1" "notes.txt" 10).2 = emptySessions ∧
    allowed_extensions.contains (strLower (pathSuffix "Video.MP4")) = true ∧
    (upload_fileApp emptySessions "s1" "Video.MP4" 10).2 "s1" = some
      { file_path := tempRoot ++ "/moodflo/" ++ "s1" ++ "/" ++ "Video.MP4",
        filename := "Video.MP4", status := "uploaded", analysis_complete := false,
        analysis := none, stream_data := none, error := none } := by
  refine ⟨by decide, ?_, by decide, ?_⟩
  · exact ((upload_validation emptySessions "s1" "notes.txt" 10).1 (by decide)).2
  · exact ((upload_validation emptySessions "s1" "Video.MP4" 10).2 (by decide)).2.1

/-- C5: the category chosen by the fallback classifier is exactly the
first-match-wins scan of the spec's ordered pattern list — energised, then
stressed/tense, then flat/disengaged, then thoughtful/constructive, then
volatile/unstable, then the default — by substring containment on the
dominant emotion, and in particular an input containing both "Energised" and
"Stressed" resolves to the energised category. -/
theorem category_first_match (d : String) :
    selectCategory d = selectCategorySpec d ∧
    selectCategory "⚡ Energised and 🔥 Stressed/Tense" =
      (energised_header, energised_suggestions) := by
  constructor
  · cases h1 : strContains d "Energised" with
    | true => simp [selectCategory, selectCategorySpec, categoryPatterns, List.find?, h1]
    | false =>
      cases h2 : strContains d "Stressed" with
      | true => simp [selectCategory, selectCategorySpec, categoryPatterns, List.find?, h1, h2]
      | false =>
        cases h3 : strContains d "Tense" with
        | true => simp [selectCategory, selectCategorySpec, categoryPatterns, List.find?, h1, h2, h3]
        | false =>
          cases h4 : strContains d "Flat" with
          | true => simp [selectCategory, selectCategorySpec, categoryPatterns, List.find?, h1, h2, h3, h4]
          | false =>
            cases h5 : strContains d "Disengaged" with
            | true => simp [selectCategory, selectCategorySpec, categoryPatterns, List.find?, h1, h2, h3, h4, h5]
            | false =>
              cases h6 : strContains d "Thoughtful" with
              | true => simp [selectCategory, selectCategorySpec, categoryPatterns, List.find?, h1, h2, h3, h4, h5, h6]
              | false =>
                cases h7 : strContains d "Constructive" with
                | true => simp [selectCategory, selectCategorySpec, categoryPatterns, List.find?, h1, h2, h3, h4, h5, h6, h7]
                | false =>
                  cases h8 : strContains d "Volatile" with
                  | true => simp [selectCategory, selectCategorySpec, categoryPatterns, List.find?, h1, h2, h3, h4, h5, h6, h7, h8]
                  | false =>
                    cases h9 : strContains d "Unstable" with
                    | true => simp [selectCategory, selectCategorySpec, categoryPatterns, List.find?, h1, h2, h3, h4, h5, h6, h7, h8, h9]
                    | false => simp [selectCategory, selectCategorySpec, categoryPatterns, List.find?, h1, h2, h3, h4, h5, h6, h7, h8, h9]
  · rfl

theorem selectCategory_cases (d : String) :
    selectCategory d = (energised_header, energised_suggestions) ∨
    selectCategory d = (stressed_header, stressed_suggestions) ∨
    selectCategory d = (flat_header, flat_suggestions) ∨
    selectCategory d = (thoughtful_header, thoughtful_suggestions) ∨
    selectCategory d = (volatile_header, volatile_suggestions) ∨
    selectCategory d = (default_header, default_suggestions) := by
  unfold selectCategory
  split_ifs <;> simp

theorem selectCategory_header_pos (d : String) : 0 < (selectCategory d).1.length := by
  rcases selectCategory_cases d with h | h | h | h | h | h <;> rw [h] <;> decide

/-- C6 counterexample: a dominant emotion matching none of the named
patterns selects the default category, whose suggestion list has only four
entries, so the output contains four recommendation lines, not five — the
claim's "exactly five recommendation lines for every combination" fails. -/
theorem fallback_five_lines_counterexample :
    ((selectCategory neutralLowData.dominant_emotion).2.take 5).length = 4 ∧
    ¬ ((selectCategory neutralLowData.dominant_emotion).2.take 5).length = 5 ∧
    neutralLowData.psych_risk = "Low" ∧
    fallback_suggestions neutralLowData =
      default_header ++ "\nRECOMMENDATIONS:\n" ++
        joinWith "\n" (default_suggestions.take 5) ++ lowLine ∧
    default_suggestions.length = 4 := by
  refine ⟨by decide, by decide, rfl, ?_, by decide⟩
  rfl

/-- C6 (amended): for every summary whose risk tier is High, Medium or Low,
the fallback output is the concatenation of the selected category header,
the "RECOMMENDATIONS:" label, the first up-to-five suggestion lines joined
by newlines, and the risk annex selected by the tier; the output is always
non-empty, and the recommendation block has exactly five lines for the five
named categories and four for the default category. -/
theorem fallback_suggestions_structure (data : SummaryData)
    (h : data.psych_risk = "High" ∨ data.psych_risk = "Medium" ∨ data.psych_risk = "Low") :
    fallback_suggestions data =
      (selectCategory data.dominant_emotion).1 ++ "\nRECOMMENDATIONS:\n" ++
        joinWith "\n" ((selectCategory data.dominant_emotion).2.take 5) ++
        riskAnnex data ∧
    0 < (fallback_suggestions data).length ∧
    ((selectCategory data.dominant_emotion).2 = default_suggestions ∧
        ((selectCategory data.dominant_emotion).2.take 5).length = 4 ∨
      ((selectCategory data.dominant_emotion).2.take 5).length = 5) := by
  have heq : fallback_suggestions data =
      (selectCategory data.dominant_emotion).1 ++ "\nRECOMMENDATIONS:\n" ++
        joinWith "\n" ((selectCategory data.dominant_emotion).2.take 5) ++
        riskAnnex data := by
    cases hH : data.psych_risk == "High" with
    | true => simp [fallback_suggestions, riskAnnex, hH]
    | false =>
      cases hM : data.psych_risk == "Medium" with
      | true => simp [fallback_suggestions, riskAnnex, hH, hM]
      | false => simp [fallback_suggestions, riskAnnex, hH, hM]
  refine ⟨heq, ?_, ?_⟩
  · rw [heq]
    have hpos := selectCategory_header_pos data.dominant_emotion
    simp only [String.length_append]
    omega
  · rcases selectCategory_cases data.dominant_emotion with hc | hc | hc | hc | hc | hc <;>
      rw [hc]
    · right; decide
    · right; decide
    · right; decide
    · right; decide
    · right; decide
    · left; exact ⟨rfl, by decide⟩

theorem fallback_suggestions_structure_witness :
    (sampleSummary.psych_risk = "High" ∨ sampleSummary.psych_risk = "Medium" ∨
      sampleSummary.psych_risk = "Low") ∧
    fallback_suggestions sampleSummary =
      (selectCategory sampleSummary.dominant_emotion).1 ++ "\nRECOMMENDATIONS:\n" ++
        joinWith "\n" ((selectCategory sampleSummary.dominant_emotion).2.take 5) ++
        riskAnnex sampleSummary ∧
    0 < (fallback_suggestions sampleSummary).length := by
  have h := fallback_suggestions_structure sampleSummary (Or.inl rfl)
  exact ⟨Or.inl rfl, h.1, h.2.1⟩

theorem scrubRow_generated (t : String) : scrubRow ["Generated:", t] = ["Generated:", ""] := rfl

theorem scrubRow_session (x : String) : scrubRow ["Session ID:", x] = ["Session ID:", x] := rfl

theorem scrubRow_duration (x : String) : scrubRow ["Duration:", x] = ["Duration:", x] := rfl

theorem scrubElem_para (t : String) : scrubElem (StoryElem.para t) = StoryElem.para t := rfl

theorem scrubElem_table (rows : List (List String)) :
    scrubElem (StoryElem.table rows) = StoryElem.table (rows.map scrubRow) := rfl

/-- C8 counterexample: the report generator captures `datetime.now()` at
construction and embeds it in both exports, so two invocations on the same
`(AnalysisResult, sessionId)` pair made at different times produce different
JSON documents and different PDF content — the exports are not pure
functions of `(AnalysisResult, sessionId)` alone. -/
theorem export_not_time_invariant :
    generate_json_report sampleResult "session-1" "2026-01-01 00:00:00" ≠
      generate_json_report sampleResult "session-1" "2026-01-02 12:00:00" ∧
    generate_pdf_story sampleResult "session-1" "2026-01-01 00:00:00" ≠
      generate_pdf_story sampleResult "session-1" "2026-01-02 12:00:00" := by
  constructor
  · intro h
    have := congrArg (fun j => j.metadata.generated) h
    simp [generate_json_report] at this
  · intro h
    have := congrArg (fun st => st.get? 2) h
    simp [generate_pdf_story] at this

/-- C8 (amended): the exports are pure functions of the completed
`AnalysisResult`, the session id and the construction-time timestamp; with
the timestamp field blanked, the JSON documents of any two invocations on
the same `(AnalysisResult, sessionId)` pair coincide, and likewise the PDF
content with its "Generated:" cell blanked. -/
theorem export_pure_up_to_timestamp (r : AnalysisResult) (sid t1 t2 : String) :
    eraseGenerated (generate_json_report r sid t1) =
      eraseGenerated (generate_json_report r sid t2) ∧
    scrubStory (generate_pdf_story r sid t1) =
      scrubStory (generate_pdf_story r sid t2) := by
  constructor
  · rfl
  · simp only [scrubStory, generate_pdf_story, List.map_append, List.map_cons,
      List.map_nil, List.map_map, scrubElem_para, scrubElem_table,
      scrubRow_generated, scrubRow_session, scrubRow_duration]
